import Mathlib

set_option maxRecDepth 100000

/-!
Verification of the portfolio response validator / normalizer of
`streamlit_app.py` (AI Portfolio Generator).

The script is a straight-line Streamlit workflow:
form inputs → completion call → `json.loads` → key access → DataFrame →
allocation normalization → rendered table and chart, the whole body wrapped
in one `except Exception` handler that shows the error message.

Shallow embedding conventions:
* JSON values are the inductive `Json`; numbers are exact rationals `ℚ`
  (machine floats are modelled as exact arithmetic, so "equals 100 within
  floating-point tolerance" becomes exact equality, which implies it).
* `json.loads` is embedded as `jsonLoads`, an executable recursive-descent
  JSON reader returning `Option Json` (`none` = `json.JSONDecodeError`,
  the spec's `MalformedResponse`).
* Python exceptions become the inductive `PyError`; `KeyError k` is the
  spec's `MissingField` naming key `k`.
* The Streamlit render calls (`st.error`, `st.write`, `st.dataframe`,
  `st.pyplot`, ...) become constructors of `RenderItem`; a run of the
  script is the list of items rendered, in order.
* External effects are inputs: the completion call outcome is an
  `Except String String` (transport failure / returned content), the
  wall-clock timeframe length (lines 78-84) is an `Int` parameter, and the
  `np.random.randn` draws are `Nat → ℚ` streams.
-/

/-- A parsed JSON value, as produced by `json.loads` (line 61).
`nonfinite` carries the non-standard constants `NaN`, `Infinity` and
`-Infinity`, which Python's `json.loads` accepts by default and turns into
non-finite floats; ℚ has no such values, so they are carried symbolically
(tagged `"nan"`, `"inf"`, `"-inf"`).  Like any non-numeric cell they are
NaN-like for the sum and the rescale, and like any non-dict value they are
not string-subscriptable. -/
inductive Json where
  | null
  | bool (b : Bool)
  | num (q : ℚ)
  | nonfinite (tag : String)
  | str (s : String)
  | arr (elements : List Json)
  | obj (members : List (String × Json))

/-! ### An executable JSON reader (embedding of `json.loads`, line 61) -/

/-- JSON insignificant whitespace. -/
def jsonWs (c : Char) : Bool := c = ' ' || c = '\t' || c = '\n' || c = '\r'

/-- Drop leading whitespace. -/
def dropWs : List Char → List Char
  | [] => []
  | c :: cs => if jsonWs c then dropWs cs else c :: cs

/-- Split a leading run of decimal digits off the input. -/
def spanDigits : List Char → List Char × List Char
  | [] => ([], [])
  | c :: cs =>
    if c.isDigit then
      let (ds, rest) := spanDigits cs
      (c :: ds, rest)
    else ([], c :: cs)

/-- Numeric value of a digit run. -/
def digitsVal (ds : List Char) : Nat :=
  ds.foldl (fun acc c => acc * 10 + (c.toNat - 48)) 0

/-- Value of one hexadecimal digit, if it is one. -/
def hexDigitVal (c : Char) : Option Nat :=
  if c.isDigit then some (c.toNat - 48)
  else if 'a' ≤ c ∧ c ≤ 'f' then some (c.toNat - 87)
  else if 'A' ≤ c ∧ c ≤ 'F' then some (c.toNat - 55)
  else none

/-- Translation of a single-character JSON escape (`\n`, `\t`, ...). -/
def escapeChar (c : Char) : Option Char :=
  if c = '"' then some '"'
  else if c = '\\' then some '\\'
  else if c = '/' then some '/'
  else if c = 'b' then some '\x08'
  else if c = 'f' then some '\x0c'
  else if c = 'n' then some '\n'
  else if c = 'r' then some '\r'
  else if c = 't' then some '\t'
  else none

/-- Read the body of a JSON string (the opening quote already consumed),
returning the decoded characters and the input after the closing quote. -/
def readStringBody : List Char → Option (List Char × List Char)
  | [] => none
  | '"' :: cs => some ([], cs)
  | '\\' :: 'u' :: a :: b :: c :: d :: cs =>
    (match hexDigitVal a, hexDigitVal b, hexDigitVal c, hexDigitVal d with
     | some ha, some hb, some hc, some hd =>
       (readStringBody cs).map fun (s, rest) =>
         (Char.ofNat (((ha * 16 + hb) * 16 + hc) * 16 + hd) :: s, rest)
     | _, _, _, _ => none)
  | '\\' :: e :: cs =>
    (match escapeChar e with
     | some c => (readStringBody cs).map fun (s, rest) => (c :: s, rest)
     | none => none)
  | c :: cs =>
    if c.toNat < 32 then none
    else (readStringBody cs).map fun (s, rest) => (c :: s, rest)

/-- Read a JSON number (sign, integer part, optional fraction and exponent)
as an exact rational. -/
def readNumber (cs : List Char) : Option (Json × List Char) :=
  let (neg, cs1) := match cs with
    | '-' :: rest => (true, rest)
    | _ => (false, cs)
  let (ipart, cs2) := spanDigits cs1
  if ipart.isEmpty then none
  else if ipart.headD 'x' = '0' ∧ ipart.length ≠ 1 then none
  else
    let withFrac : Option (ℚ × List Char) :=
      match cs2 with
      | '.' :: rest =>
        let (fpart, cs3) := spanDigits rest
        if fpart.isEmpty then none
        else some ((digitsVal ipart : ℚ) + (digitsVal fpart : ℚ) / (10 : ℚ) ^ fpart.length, cs3)
      | _ => some ((digitsVal ipart : ℚ), cs2)
    match withFrac with
    | none => none
    | some (mant, cs3) =>
      let withExp : Option (ℚ × List Char) :=
        match cs3 with
        | 'e' :: rest | 'E' :: rest =>
          let (esign, r1) := match rest with
            | '+' :: r2 => (false, r2)
            | '-' :: r2 => (true, r2)
            | _ => (false, rest)
          let (epart, cs4) := spanDigits r1
          if epart.isEmpty then none
          else if esign then some (mant / (10 : ℚ) ^ digitsVal epart, cs4)
          else some (mant * (10 : ℚ) ^ digitsVal epart, cs4)
        | _ => some (mant, cs3)
      match withExp with
      | none => none
      | some (q, cs5) => some (.num (if neg then -q else q), cs5)

/-- Insert a member into an object under Python `dict` semantics: a repeated
key overwrites the earlier value in place, otherwise the member is appended. -/
def insertMember : List (String × Json) → String → Json → List (String × Json)
  | [], k, v => [(k, v)]
  | kv :: rest, k, v =>
    if kv.1 = k then (k, v) :: rest else kv :: insertMember rest k v

mutual

/-- Read one JSON value; `fuel` only bounds recursion depth (totality). -/
def readValue : Nat → List Char → Option (Json × List Char)
  | 0, _ => none
  | Nat.succ fuel, cs =>
    match dropWs cs with
    | 'n' :: 'u' :: 'l' :: 'l' :: rest => some (.null, rest)
    | 't' :: 'r' :: 'u' :: 'e' :: rest => some (.bool true, rest)
    | 'f' :: 'a' :: 'l' :: 's' :: 'e' :: rest => some (.bool false, rest)
    | '"' :: rest =>
      (readStringBody rest).map fun (s, r) => (.str (String.mk s), r)
    | '[' :: rest =>
      (match dropWs rest with
       | ']' :: r2 => some (.arr [], r2)
       | r2 => readArrayItems fuel r2 [])
    | '{' :: rest =>
      (match dropWs rest with
       | '}' :: r2 => some (.obj [], r2)
       | r2 => readObjectItems fuel r2 [])
    | 'N' :: 'a' :: 'N' :: rest => some (.nonfinite "nan", rest)
    | 'I' :: 'n' :: 'f' :: 'i' :: 'n' :: 'i' :: 't' :: 'y' :: rest =>
      some (.nonfinite "inf", rest)
    | '-' :: 'I' :: 'n' :: 'f' :: 'i' :: 'n' :: 'i' :: 't' :: 'y' :: rest =>
      some (.nonfinite "-inf", rest)
    | other => readNumber other

/-- Read the remaining items of a non-empty array (after `[`). -/
def readArrayItems : Nat → List Char → List Json → Option (Json × List Char)
  | 0, _, _ => none
  | Nat.succ fuel, cs, acc =>
    match readValue fuel cs with
    | none => none
    | some (v, rest) =>
      match dropWs rest with
      | ',' :: r2 => readArrayItems fuel r2 (acc ++ [v])
      | ']' :: r2 => some (.arr (acc ++ [v]), r2)
      | _ => none

/-- Read the remaining members of a non-empty object (after `{`). -/
def readObjectItems : Nat → List Char → List (String × Json) → Option (Json × List Char)
  | 0, _, _ => none
  | Nat.succ fuel, cs, acc =>
    match dropWs cs with
    | '"' :: rest =>
      (match readStringBody rest with
       | none => none
       | some (k, r1) =>
         match dropWs r1 with
         | ':' :: r2 =>
           (match readValue fuel r2 with
            | none => none
            | some (v, r3) =>
              match dropWs r3 with
              | ',' :: r4 => readObjectItems fuel r4 (insertMember acc (String.mk k) v)
              | '}' :: r4 => some (.obj (insertMember acc (String.mk k) v), r4)
              | _ => none)
         | _ => none)
    | _ => none

end

/-- Embedding of `json.loads(content)` (line 61): `none` is
`json.JSONDecodeError` — the spec's `MalformedResponse`.  The whole input
must be one JSON value with only trailing whitespace. -/
def jsonLoads (s : String) : Option Json :=
  let cs := s.toList
  match readValue (2 * cs.length + 4) cs with
  | none => none
  | some (v, rest) => if (dropWs rest).isEmpty then some v else none

/-! ### Python exceptions and field access -/

/-- The exceptions the script body can raise, all caught by the
`except Exception` handler at lines 103-105. -/
inductive PyError where
  /-- The completion call itself failed (lines 47-53); spec: `TransportFailure`. -/
  | transport (msg : String)
  /-- The `json.JSONDecodeError` from `json.loads` (line 61); spec: `MalformedResponse`. -/
  | jsonDecode
  /-- The `KeyError` from `dict` / column access (lines 62, 63, 69); spec: `MissingField`. -/
  | keyError (k : String)
  /-- The `TypeError` from subscripting a non-dict JSON value with a string key. -/
  | typeError (msg : String)
  /-- The `ValueError` (DataFrame construction, or a negative `periods` at line 86). -/
  | valueError (msg : String)
  /-- pandas `KeyError` from column selection (line 75), naming every missing column. -/
  | colsNotInIndex (ks : List String)

/-- Look a key up in an object member list (Python `dict` access; member lists
built by `insertMember` have distinct keys, so first match is the match). -/
def getMember (members : List (String × Json)) (k : String) : Option Json :=
  (members.find? fun kv => kv.1 = k).map fun kv => kv.2

/-- Embedding of `value[k]` for a string key `k` (lines 62-63): `KeyError` on a
dict without the key, `TypeError` on any non-dict value. -/
def pyGetItem (v : Json) (k : String) : Except PyError Json :=
  match v with
  | .obj members =>
    match getMember members k with
    | some x => .ok x
    | none => .error (.keyError k)
  | _ => .error (.typeError "value is not subscriptable by a string key")

/-! ### The DataFrame and the allocation normalization (lines 68-75) -/

/-- A DataFrame row, as built by `pd.DataFrame(portfolio)` from a JSON object
(line 68): the object's member list. A key absent from a row whose column
exists elsewhere is a NaN cell. -/
abbrev Row := List (String × Json)

/-- Rows of a JSON array all of whose items are objects; any other item is a
constructor error. -/
def rowsOfItems : List Json → Except PyError (List Row)
  | [] => .ok []
  | .obj members :: rest => (rowsOfItems rest).map fun rs => members :: rs
  | _ :: _ => .error (.valueError "DataFrame constructor not properly called")

/-- Embedding of `pd.DataFrame(portfolio)` (line 68): a JSON array of objects
becomes the row list; any other shape is modelled as a constructor error. -/
def toRows (v : Json) : Except PyError (List Row) :=
  match v with
  | .arr elements => rowsOfItems elements
  | _ => .error (.valueError "DataFrame constructor not properly called")

/-- A column exists in the frame iff some row has the key. -/
def hasColumn (rows : List Row) (k : String) : Bool :=
  rows.any fun r => (getMember r k).isSome

/-- Embedding of `df['allocation'].sum()` (line 69): sum the numeric
`allocation` cells, skipping missing (NaN) ones, as pandas `sum` does. -/
def total_alloc (rows : List Row) : ℚ :=
  rows.foldr
    (fun r acc =>
      match getMember r "allocation" with
      | some (.num q) => q + acc
      | _ => acc)
    0

/-- Rescale one cell of the `allocation` column (line 72): a numeric cell
becomes `q / total * 100`; a non-numeric cell is NaN-like and stays put. -/
def rescaleCell (total : ℚ) : Json → Json
  | .num q => .num (q / total * 100)
  | v => v

/-- Apply the column assignment `df['allocation'] = df['allocation'] / total_alloc * 100`
(line 72) to one row: only the `allocation` member changes. -/
def rescaleRow (total : ℚ) (r : Row) : Row :=
  r.map fun kv => if kv.1 = "allocation" then (kv.1, rescaleCell total kv.2) else kv

/-- The guard of line 70: rescale exactly when `abs(total_alloc - 100) > 0.1`. -/
def needsAdjust (total : ℚ) : Bool := |total - 100| > 1/10

/-- Lines 69-72 at the frame level: compute the total, and rescale every
row's allocation cell iff the total is off by more than 0.1. -/
def normalizeRows (rows : List Row) : List Row :=
  let total := total_alloc rows
  if needsAdjust total then rows.map (rescaleRow total) else rows

/-- Lines 69-72 over a plain allocation column (every cell numeric):
`total = sum`; if `abs(total - 100) > 0.1` then each `a` becomes
`a / total * 100`, else the column is untouched. -/
def normalizeAllocs (l : List ℚ) : List ℚ :=
  let total := l.sum
  if needsAdjust total then l.map fun a => a / total * 100 else l

/-! ### The rendered output of one run -/

/-- One Streamlit render call, in the order the script issues them. -/
inductive RenderItem where
  /-- The `st.error` call (lines 26 and 104). -/
  | errorMsg (s : String)
  /-- The `st.exception(traceback.format_exc())` call (line 105). -/
  | exceptionTrace
  /-- The `st.code` call (lines 44 and 59). -/
  | codeBlock (s : String)
  /-- The `st.info` call (line 45). -/
  | info (s : String)
  /-- The `st.success` call (line 55). -/
  | success (s : String)
  /-- The `st.json(response.model_dump())` call (line 56), keyed by the content. -/
  | respDump (content : String)
  /-- The `st.subheader` call (lines 65, 74, 77). -/
  | subheader (s : String)
  /-- The `st.write(justification)` call (line 66). -/
  | writeText (v : Json)
  /-- The `st.warning` call about the off total (line 71), carrying the total. -/
  | adjustWarning (total : ℚ)
  /-- The `st.dataframe(df[[...]])` call (line 75): the four selected columns per row,
  `none` being a NaN cell. -/
  | table (cells : List (Option Json × Option Json × Option Json × Option Json))
  /-- The `st.pyplot(fig)` call (line 101) with the two synthetic series. -/
  | chart (numDays : Int) (portfolioSeries benchmarkSeries : List ℚ)

/-- Running sums (`np.cumsum`). -/
def cumsumFrom (acc : ℚ) : List ℚ → List ℚ
  | [] => []
  | x :: xs => (acc + x) :: cumsumFrom (acc + x) xs

/-- One synthetic series (lines 89-90): `10000 + np.cumsum(draws * scale)`. -/
def randomWalk (n : Nat) (draws : Nat → ℚ) (scale : ℚ) : List ℚ :=
  (cumsumFrom 0 ((List.range n).map fun i => draws i * scale)).map fun x => 10000 + x

/-- The four displayed cells of a row (line 75 column selection). -/
def projRow (r : Row) : Option Json × Option Json × Option Json × Option Json :=
  (getMember r "symbol", getMember r "name",
   getMember r "allocation", getMember r "justification")

/-- The displayed columns (line 75) that are absent from every row, in
selection order; nonempty means the pandas `KeyError` listing them. -/
def missingColumns (rows : List Row) : List String :=
  ["symbol", "name", "allocation", "justification"].filter fun k => !(hasColumn rows k)

/-- Embedding of `str(e)` of a caught exception, as interpolated at line 104. -/
def errStr : PyError → String
  | .transport msg => msg
  | .jsonDecode => "Expecting value: line 1 column 1 (char 0)"
  | .keyError k => k
  | .typeError msg => msg
  | .valueError msg => msg
  | .colsNotInIndex ks => String.intercalate ", " ks ++ " not in index"

/-- The prompt template (lines 31-40); it embeds the thesis verbatim. -/
def promptFor (thesis : String) : String :=
  "Please respond with a json object only. [...] Investment Thesis: " ++ thesis

/-! ### The script body -/

/-- Lines 28-101, the `try` body: the items rendered before any failure,
and the exception that ends the run, if one does.  `completion` is the
outcome of the `client.chat.completions.create` call (lines 47-53);
`numDays` is the timeframe length of lines 78-84 (wall-clock dependent,
negative when a custom start date lies in the future); `drawsP`/`drawsB`
are the `np.random.randn` streams of lines 89-90. -/
def tryBody (thesis : String) (completion : Except String String)
    (numDays : Int) (drawsP drawsB : Nat → ℚ) :
    List RenderItem × Option PyError :=
  let sent : List RenderItem :=
    [.codeBlock (promptFor thesis), .info "Sending request to OpenAI API..."]
  match completion with
  | .error msg => (sent, some (.transport msg))
  | .ok content =>
    let received := sent ++
      [.success "OpenAI response received successfully.",
       .respDump content, .codeBlock content]
    match jsonLoads content with
    | none => (received, some .jsonDecode)
    | some portfolio_data =>
      match pyGetItem portfolio_data "portfolio" with
      | .error e => (received, some e)
      | .ok portfolio =>
        match pyGetItem portfolio_data "overallJustification" with
        | .error e => (received, some e)
        | .ok justification =>
          let shown := received ++
            [.subheader "📌 Overall Strategy Justification", .writeText justification]
          match toRows portfolio with
          | .error e => (shown, some e)
          | .ok rows =>
            if hasColumn rows "allocation" then
              let total := total_alloc rows
              let shown2 := if needsAdjust total then shown ++ [.adjustWarning total] else shown
              let rows2 := if needsAdjust total then rows.map (rescaleRow total) else rows
              let shown3 := shown2 ++ [.subheader "📈 Portfolio Composition"]
              match missingColumns rows2 with
              | [] =>
                let shown4 := shown3 ++
                  [.table (rows2.map projRow),
                   .subheader "📊 Simulated Performance vs SPY"]
                if numDays < 0 then
                  (shown4, some (.valueError "Number of samples must be non-negative"))
                else
                  (shown4 ++ [.chart numDays (randomWalk numDays.toNat drawsP 10)
                                (randomWalk numDays.toNat drawsB 8)], none)
              | ms => (shown3, some (.colsNotInIndex ms))
            else (shown, some (.keyError "allocation"))

/-- The whole button handler (lines 24-105): the empty-field check of
lines 25-26, then the `try` body, with every exception converted to
`st.error` + `st.exception` by the handler at lines 103-105. -/
def generatePortfolio (thesis openai_api_key fmp_api_key : String)
    (completion : Except String String) (numDays : Int)
    (drawsP drawsB : Nat → ℚ) : List RenderItem :=
  if thesis.isEmpty || openai_api_key.isEmpty || fmp_api_key.isEmpty then
    [.errorMsg "Please provide all required fields."]
  else
    match tryBody thesis completion numDays drawsP drawsB with
    | (shown, none) => shown
    | (shown, some e) =>
      shown ++ [.errorMsg ("An error occurred: " ++ errStr e), .exceptionTrace]

/-! ### Boolean observers on a run's output -/

/-- Some `st.error` was shown. -/
def hasError (out : List RenderItem) : Bool :=
  out.any fun item => match item with | .errorMsg _ => true | _ => false

/-- The chart (the last piece of a fully successful render) was shown. -/
def hasChart (out : List RenderItem) : Bool :=
  out.any fun item => match item with | .chart _ _ _ => true | _ => false

/-- Some portfolio output (justification text, table, or chart) was shown. -/
def hasPortfolioOutput (out : List RenderItem) : Bool :=
  out.any fun item =>
    match item with
    | .writeText _ => true
    | .table _ => true
    | .chart _ _ _ => true
    | _ => false

/-! ### Helper lemmas -/

theorem sum_map_rescale (l : List ℚ) (t : ℚ) :
    (l.map fun a => a / t * 100).sum = l.sum / t * 100 := by
  induction l with
  | nil => simp
  | cons x xs ih => simp [ih, add_div, add_mul]

theorem needsAdjust_true {t : ℚ} (h : |t - 100| > 1/10) : needsAdjust t = true := by
  simpa [needsAdjust] using h

theorem needsAdjust_false {t : ℚ} (h : |t - 100| ≤ 1/10) : needsAdjust t = false := by
  simpa [needsAdjust, not_lt] using h

theorem normalizeAllocs_length (l : List ℚ) :
    (normalizeAllocs l).length = l.length := by
  by_cases h : needsAdjust l.sum = true <;> simp [normalizeAllocs, h]

/-! ### C1-C3, C8: the normalization arithmetic (lines 69-72) -/

/-- C1: when the allocations sum to `total` with `total > 0` and
`|total - 100| > 0.1`, the normalizer rescales every entry to
`a / total * 100`, and the normalized allocations sum to exactly 100
(exact rational arithmetic, hence within any floating-point tolerance). -/
theorem C1_rescale_sums_to_100 (l : List ℚ)
    (hpos : 0 < l.sum) (hoff : |l.sum - 100| > 1/10) :
    normalizeAllocs l = (l.map fun a => a / l.sum * 100) ∧
    (normalizeAllocs l).sum = 100 := by
  have ht : l.sum ≠ 0 := ne_of_gt hpos
  have hb := needsAdjust_true hoff
  have heq : normalizeAllocs l = (l.map fun a => a / l.sum * 100) := by
    simp [normalizeAllocs, hb]
  refine ⟨heq, ?_⟩
  rw [heq, sum_map_rescale, div_self ht, one_mul]

/-- Witness for C1 at the spec's own scenario: allocations 60 and 60,
total 120, normalized to 50 and 50, summing to 100. -/
theorem C1_witness :
    (0 : ℚ) < ([60, 60] : List ℚ).sum ∧ |([60, 60] : List ℚ).sum - 100| > 1/10 ∧
    (normalizeAllocs [60, 60]).sum = 100 ∧ normalizeAllocs [60, 60] = [50, 50] :=
  ⟨by norm_num, by norm_num,
   (C1_rescale_sums_to_100 [60, 60] (by norm_num) (by norm_num)).2,
   by norm_num [normalizeAllocs, needsAdjust, abs_le]⟩

/-- C2: when the allocations sum to within 0.1 of 100, normalization is a
no-op: the output column equals the input column, no rescale applied. -/
theorem C2_within_tolerance_noop (l : List ℚ) (h : |l.sum - 100| ≤ 1/10) :
    normalizeAllocs l = l := by
  simp [normalizeAllocs, needsAdjust_false h]

/-- Witness for C2 at the spec's own scenario: allocations 50 and 50.05,
total 100.05, left unchanged. -/
theorem C2_witness :
    |([50, 1001/20] : List ℚ).sum - 100| ≤ 1/10 ∧
    normalizeAllocs [50, 1001/20] = [50, 1001/20] :=
  ⟨by norm_num [abs_le], C2_within_tolerance_noop [50, 1001/20] (by norm_num [abs_le])⟩

/-- C3: under the rescale guard (`total > 0`, `|total - 100| > 0.1`), the
normalization preserves every pairwise ratio `a_i / a_j` (for `a_j ≠ 0`). -/
theorem C3_ratios_preserved (l : List ℚ)
    (hpos : 0 < l.sum) (hoff : |l.sum - 100| > 1/10)
    (i j : Fin l.length) (hj : l.get j ≠ 0) :
    (normalizeAllocs l).get (Fin.cast (normalizeAllocs_length l).symm i) /
      (normalizeAllocs l).get (Fin.cast (normalizeAllocs_length l).symm j) =
    l.get i / l.get j := by
  have ht : l.sum ≠ 0 := ne_of_gt hpos
  have hb := needsAdjust_true hoff
  simp only [normalizeAllocs, hb, if_true, List.get_eq_getElem, Fin.coe_cast,
    List.getElem_map]
  field_simp
  exact mul_div_mul_right _ _ (by norm_num)

/-- Witness for C3: entries 60 and 60 keep ratio 1 after becoming 50 and 50. -/
theorem C3_witness :
    (0 : ℚ) < ([60, 60] : List ℚ).sum ∧ |([60, 60] : List ℚ).sum - 100| > 1/10 ∧
    ([60, 60] : List ℚ).get ⟨1, by norm_num⟩ ≠ 0 ∧
    (normalizeAllocs [60, 60]).get (Fin.cast (normalizeAllocs_length [60, 60]).symm ⟨0, by norm_num⟩) /
      (normalizeAllocs [60, 60]).get (Fin.cast (normalizeAllocs_length [60, 60]).symm ⟨1, by norm_num⟩) =
    ([60, 60] : List ℚ).get ⟨0, by norm_num⟩ / ([60, 60] : List ℚ).get ⟨1, by norm_num⟩ :=
  ⟨by norm_num, by norm_num, by norm_num,
   C3_ratios_preserved [60, 60] (by norm_num) (by norm_num) ⟨0, by norm_num⟩ ⟨1, by norm_num⟩
     (by norm_num)⟩

/-- C8: the rescale divides by `total_alloc` with no guard against a
non-positive total: a portfolio of all-zero allocations has `total = 0`,
still satisfies the rescale guard `|total - 100| > 0.1`, so the rescale
branch is reached with a zero divisor — and the resulting column does not
sum to 100 (the code would produce NaN allocations there). -/
theorem C8_zero_total_reaches_rescale :
    ∃ l : List ℚ, l ≠ [] ∧ (∀ a ∈ l, a = 0) ∧ l.sum = 0 ∧
      needsAdjust l.sum = true ∧ (normalizeAllocs l).sum ≠ 100 := by
  refine ⟨[0, 0], by simp, by simp, by simp, ?_, ?_⟩
  · norm_num [needsAdjust]
  · norm_num [normalizeAllocs, needsAdjust]

/-! ### C10: the rescale touches only the `allocation` column -/

theorem getMember_rescaleRow (t : ℚ) (r : Row) (k : String)
    (hk : k ≠ "allocation") :
    getMember (rescaleRow t r) k = getMember r k := by
  induction r with
  | nil => rfl
  | cons kv rest ih =>
    simp only [rescaleRow, List.map_cons] at ih ⊢
    by_cases hkv : kv.1 = k
    · have halloc : ¬kv.1 = "allocation" := fun h => hk (hkv ▸ h)
      rw [if_neg halloc]
      simp [getMember, List.find?, hkv]
    · by_cases halloc : kv.1 = "allocation"
      · rw [if_pos halloc]
        simpa [getMember, List.find?, hkv] using ih
      · rw [if_neg halloc]
        simpa [getMember, List.find?, hkv] using ih

/-- C10: the validate-and-normalize step (lines 68-75) modifies only the
`allocation` column: whether or not the rescale fires, the row count, the
row order, and every row's `symbol`, `name` and `justification` cells are
those of the parsed input. -/
theorem C10_only_allocation_changes (rows : List Row) :
    (normalizeRows rows).length = rows.length ∧
    ((normalizeRows rows).map fun r =>
        (getMember r "symbol", getMember r "name", getMember r "justification")) =
      (rows.map fun r =>
        (getMember r "symbol", getMember r "name", getMember r "justification")) := by
  by_cases h : needsAdjust (total_alloc rows) = true
  · refine ⟨by simp [normalizeRows, h], ?_⟩
    simp only [normalizeRows, h, if_true, List.map_map]
    refine List.map_congr_left fun r _ => ?_
    simp [Function.comp, getMember_rescaleRow (total_alloc rows) r "symbol" (by decide),
      getMember_rescaleRow (total_alloc rows) r "name" (by decide),
      getMember_rescaleRow (total_alloc rows) r "justification" (by decide)]
  · exact ⟨by simp [normalizeRows, h], by simp [normalizeRows, h]⟩

/-! ### C7, C9: the form-field gate (lines 24-27) -/

/-- C7: with the thesis text empty — or any of the three required form
fields empty — the run halts at the required-fields check (lines 25-26):
the only render is the immediate error message, and the output does not
depend on `completion` — no completion call is made (the spec's
`MissingInput`). -/
theorem C7_missing_input_halts (thesis openai_api_key fmp_api_key : String)
    (completion : Except String String) (numDays : Int) (drawsP drawsB : Nat → ℚ)
    (h : thesis.isEmpty = true ∨ openai_api_key.isEmpty = true ∨
      fmp_api_key.isEmpty = true) :
    generatePortfolio thesis openai_api_key fmp_api_key completion numDays drawsP drawsB =
      [.errorMsg "Please provide all required fields."] := by
  rcases h with h | h | h <;> simp [generatePortfolio, h]

/-- Witness for C7, at both kinds of missing input: an empty thesis with
the other fields supplied, and a non-empty thesis with an empty FMP key. -/
theorem C7_witness :
    ("" : String).isEmpty = true ∧
    generatePortfolio "" "sk" "fk" (.ok "ignored") 7 (fun _ => 1) (fun _ => 2) =
      [.errorMsg "Please provide all required fields."] ∧
    ("t" : String).isEmpty = false ∧
    generatePortfolio "t" "sk" "" (.ok "ignored") 7 (fun _ => 1) (fun _ => 2) =
      [.errorMsg "Please provide all required fields."] :=
  ⟨rfl,
   C7_missing_input_halts "" "sk" "fk" (.ok "ignored") 7 (fun _ => 1) (fun _ => 2)
     (Or.inl rfl),
   rfl,
   C7_missing_input_halts "t" "sk" "" (.ok "ignored") 7 (fun _ => 1) (fun _ => 2)
     (Or.inr (Or.inr rfl))⟩

/-- C9: the FMP key is only checked for emptiness (line 25) and never used:
two runs that differ only in a non-empty FMP key value render identically. -/
theorem C9_fmp_key_never_used (thesis openai_api_key k1 k2 : String)
    (completion : Except String String) (numDays : Int) (drawsP drawsB : Nat → ℚ)
    (h1 : k1.isEmpty = false) (h2 : k2.isEmpty = false) :
    generatePortfolio thesis openai_api_key k1 completion numDays drawsP drawsB =
      generatePortfolio thesis openai_api_key k2 completion numDays drawsP drawsB := by
  simp [generatePortfolio, h1, h2]

/-- Witness for C9: two concrete runs differing only in the FMP key value. -/
theorem C9_witness :
    ("fmp-a" : String).isEmpty = false ∧ ("fmp-b" : String).isEmpty = false ∧
    generatePortfolio "t" "sk" "fmp-a" (.ok "null") 0 (fun _ => 0) (fun _ => 0) =
      generatePortfolio "t" "sk" "fmp-b" (.ok "null") 0 (fun _ => 0) (fun _ => 0) :=
  ⟨rfl, rfl,
   C9_fmp_key_never_used "t" "sk" "fmp-a" "fmp-b" (.ok "null") 0 (fun _ => 0) (fun _ => 0)
     rfl rfl⟩

/-! ### C4: unparseable completion text -/

/-- Is a parse result a JSON object? -/
def isObjResult : Option Json → Bool
  | some (.obj _) => true
  | _ => false

/-- C4 as stated is false: neither `null` nor the non-standard constant
`NaN` (which `json.loads` accepts by default) is parseable as a JSON
*object*, yet on both the surfaced error is the `TypeError` from
subscripting a non-dict at line 62, not the `MalformedResponse`
(`json.JSONDecodeError`) the claim requires.  The error is still caught
and surfaced. -/
theorem C4_counterexample :
    isObjResult (jsonLoads "null") = false ∧
    (jsonLoads "null").isSome = true ∧
    (tryBody "t" (.ok "null") 0 (fun _ => 0) (fun _ => 0)).2 =
      some (.typeError "value is not subscriptable by a string key") ∧
    jsonLoads "NaN" = some (.nonfinite "nan") ∧
    isObjResult (jsonLoads "NaN") = false ∧
    (tryBody "t" (.ok "NaN") 0 (fun _ => 0) (fun _ => 0)).2 =
      some (.typeError "value is not subscriptable by a string key") ∧
    some (PyError.typeError "value is not subscriptable by a string key") ≠
      some PyError.jsonDecode := by
  refine ⟨rfl, rfl, rfl, rfl, rfl, rfl, by simp⟩

/-- C4 amended: for every completion text that `json.loads` cannot parse
at all (no JSON value — `loads` also accepts the non-standard constants
`NaN`, `Infinity`, `-Infinity`), the run fails with `MalformedResponse`
(`json.JSONDecodeError`), which the top-level handler surfaces as an error
message — never an unhandled fault.  (Text that `loads` does parse but not
to an object — `null`, an array, `NaN`, ... — instead fails with a caught
and surfaced `TypeError`; see the counterexample.) -/
theorem C4_unparseable_is_malformed
    (thesis openai_api_key fmp_api_key content : String)
    (numDays : Int) (drawsP drawsB : Nat → ℚ)
    (hparse : jsonLoads content = none)
    (h1 : thesis.isEmpty = false) (h2 : openai_api_key.isEmpty = false)
    (h3 : fmp_api_key.isEmpty = false) :
    (tryBody thesis (.ok content) numDays drawsP drawsB).2 = some PyError.jsonDecode ∧
    generatePortfolio thesis openai_api_key fmp_api_key (.ok content) numDays drawsP drawsB =
      (tryBody thesis (.ok content) numDays drawsP drawsB).1 ++
        [.errorMsg ("An error occurred: " ++ errStr PyError.jsonDecode),
         .exceptionTrace] := by
  have ht : tryBody thesis (.ok content) numDays drawsP drawsB =
      ([.codeBlock (promptFor thesis), .info "Sending request to OpenAI API...",
        .success "OpenAI response received successfully.", .respDump content,
        .codeBlock content], some .jsonDecode) := by
    simp [tryBody, hparse]
  refine ⟨by rw [ht], ?_⟩
  simp [generatePortfolio, h1, h2, h3, ht]

/-- Witness for C4 (amended): the text `{` is not parseable as JSON, and
the run surfaces `MalformedResponse`. -/
theorem C4_witness :
    jsonLoads "\x7b" = none ∧
    (tryBody "t" (.ok "\x7b") 0 (fun _ => 0) (fun _ => 0)).2 = some PyError.jsonDecode :=
  ⟨rfl,
   (C4_unparseable_is_malformed "t" "sk" "fk" "\x7b" 0 (fun _ => 0) (fun _ => 0)
     rfl rfl rfl rfl).1⟩

/-! ### C5: missing required keys -/

theorem getMember_rescaleRow_isSome (t : ℚ) (r : Row) (k : String) :
    (getMember (rescaleRow t r) k).isSome = (getMember r k).isSome := by
  by_cases hk : k = "allocation"
  · subst hk
    induction r with
    | nil => rfl
    | cons kv rest ih =>
      simp only [rescaleRow, List.map_cons] at ih ⊢
      by_cases halloc : kv.1 = "allocation"
      · rw [if_pos halloc]
        simp [getMember, List.find?, halloc]
      · rw [if_neg halloc]
        simpa [getMember, List.find?, halloc] using ih
  · rw [getMember_rescaleRow t r k hk]

theorem hasColumn_rescale (t : ℚ) (rows : List Row) (k : String) :
    hasColumn (rows.map (rescaleRow t)) k = hasColumn rows k := by
  simp only [hasColumn, List.any_map]
  congr 1
  funext r
  simp [Function.comp, getMember_rescaleRow_isSome]

theorem missingColumns_rescale (t : ℚ) (rows : List Row) :
    missingColumns (rows.map (rescaleRow t)) = missingColumns rows := by
  simp [missingColumns, hasColumn_rescale]

/-- A fully successful pass through the `try` body: every access succeeds,
the four displayed columns exist, the timeframe is non-negative — no
exception is raised. -/
theorem tryBody_success (thesis content : String) (pdata p j : Json)
    (rows : List Row) (numDays : Int) (drawsP drawsB : Nat → ℚ)
    (hparse : jsonLoads content = some pdata)
    (hport : pyGetItem pdata "portfolio" = .ok p)
    (hjust : pyGetItem pdata "overallJustification" = .ok j)
    (hrows : toRows p = .ok rows)
    (hcol : hasColumn rows "allocation" = true)
    (hmc : missingColumns rows = [])
    (hnd : ¬numDays < 0) :
    (tryBody thesis (.ok content) numDays drawsP drawsB).2 = none := by
  by_cases hadj : needsAdjust (total_alloc rows) = true
  · simp [tryBody, hparse, hport, hjust, hrows, hcol, hadj, missingColumns_rescale,
      hmc, hnd]
  · simp [tryBody, hparse, hport, hjust, hrows, hcol, hadj, hmc, hnd]

/-- C5 as stated is false: in this parsed object, entry `B` lacks
`allocation` while entry `A` has it, so the `allocation` column exists;
the run renders to completion with no error at all — `B`'s missing cell is
just NaN. -/
theorem C5_counterexample :
    getMember [("symbol", Json.str "B"), ("name", Json.str "Beta"),
      ("justification", Json.str "y")] "allocation" = none ∧
    (tryBody "t"
      (.ok "\x7b\"portfolio\":[\x7b\"symbol\":\"A\",\"name\":\"Alpha\",\"allocation\":60,\"justification\":\"x\"\x7d,\x7b\"symbol\":\"B\",\"name\":\"Beta\",\"justification\":\"y\"\x7d],\"overallJustification\":\"z\"\x7d")
      0 (fun _ => 0) (fun _ => 0)).2 = none :=
  ⟨rfl,
   tryBody_success "t"
     "\x7b\"portfolio\":[\x7b\"symbol\":\"A\",\"name\":\"Alpha\",\"allocation\":60,\"justification\":\"x\"\x7d,\x7b\"symbol\":\"B\",\"name\":\"Beta\",\"justification\":\"y\"\x7d],\"overallJustification\":\"z\"\x7d"
     (Json.obj
       [("portfolio", Json.arr
         [Json.obj [("symbol", Json.str "A"), ("name", Json.str "Alpha"),
           ("allocation", Json.num 60), ("justification", Json.str "x")],
          Json.obj [("symbol", Json.str "B"), ("name", Json.str "Beta"),
           ("justification", Json.str "y")]]),
        ("overallJustification", Json.str "z")])
     (Json.arr
       [Json.obj [("symbol", Json.str "A"), ("name", Json.str "Alpha"),
         ("allocation", Json.num 60), ("justification", Json.str "x")],
        Json.obj [("symbol", Json.str "B"), ("name", Json.str "Beta"),
         ("justification", Json.str "y")]])
     (Json.str "z")
     [[("symbol", Json.str "A"), ("name", Json.str "Alpha"),
       ("allocation", Json.num 60), ("justification", Json.str "x")],
      [("symbol", Json.str "B"), ("name", Json.str "Beta"),
       ("justification", Json.str "y")]]
     0 (fun _ => 0) (fun _ => 0)
     rfl rfl rfl rfl rfl rfl (by norm_num)⟩

/-- C5 amended: a missing *top-level* key fails with `KeyError`
(`MissingField`) naming that key; a required entry field fails with an
error naming it only when the field is absent from *every* entry (so its
whole column is missing) — `allocation` at the sum (line 69), the other
three at the column selection (line 75, naming every missing column).  An
entry lacking a field that another entry has produces no error (the cell
is NaN; see the counterexample). -/
theorem C5_missing_key_errors (thesis content : String) (pdata : Json)
    (numDays : Int) (drawsP drawsB : Nat → ℚ)
    (hparse : jsonLoads content = some pdata) :
    (pyGetItem pdata "portfolio" = .error (.keyError "portfolio") →
      (tryBody thesis (.ok content) numDays drawsP drawsB).2 =
        some (.keyError "portfolio")) ∧
    (∀ p, pyGetItem pdata "portfolio" = .ok p →
      pyGetItem pdata "overallJustification" = .error (.keyError "overallJustification") →
      (tryBody thesis (.ok content) numDays drawsP drawsB).2 =
        some (.keyError "overallJustification")) ∧
    (∀ p j rows, pyGetItem pdata "portfolio" = .ok p →
      pyGetItem pdata "overallJustification" = .ok j →
      toRows p = .ok rows → hasColumn rows "allocation" = false →
      (tryBody thesis (.ok content) numDays drawsP drawsB).2 =
        some (.keyError "allocation")) ∧
    (∀ p j rows k, pyGetItem pdata "portfolio" = .ok p →
      pyGetItem pdata "overallJustification" = .ok j →
      toRows p = .ok rows → hasColumn rows "allocation" = true →
      (k = "symbol" ∨ k = "name" ∨ k = "justification") →
      hasColumn rows k = false →
      ∃ ms, (tryBody thesis (.ok content) numDays drawsP drawsB).2 =
        some (.colsNotInIndex ms) ∧ k ∈ ms) := by
  refine ⟨?_, ?_, ?_, ?_⟩
  · intro hport
    simp [tryBody, hparse, hport]
  · intro p hport hjust
    simp [tryBody, hparse, hport, hjust]
  · intro p j rows hport hjust hrows hcol
    simp [tryBody, hparse, hport, hjust, hrows, hcol]
  · intro p j rows k hport hjust hrows hcol hk hknone
    have hkmem : k ∈ missingColumns rows := by
      simp only [missingColumns, List.mem_filter]
      rcases hk with h | h | h <;> subst h <;> simp [hknone]
    have hne : missingColumns rows ≠ [] := by
      intro h
      rw [h] at hkmem
      exact absurd hkmem (List.not_mem_nil k)
    cases hmc : missingColumns rows with
    | nil => exact absurd hmc hne
    | cons m ms =>
      refine ⟨m :: ms, ?_, hmc ▸ hkmem⟩
      by_cases hadj : needsAdjust (total_alloc rows) = true
      · simp [tryBody, hparse, hport, hjust, hrows, hcol, hadj,
          missingColumns_rescale, hmc]
      · simp [tryBody, hparse, hport, hjust, hrows, hcol, hadj, hmc]

/-- Witness for C5 (amended): a parsed object whose `overallJustification`
key is absent fails with the `KeyError` naming it. -/
theorem C5_witness :
    jsonLoads "\x7b\"portfolio\": []\x7d" = some (Json.obj [("portfolio", Json.arr [])]) ∧
    (tryBody "t" (.ok "\x7b\"portfolio\": []\x7d") 0 (fun _ => 0) (fun _ => 0)).2 =
      some (.keyError "overallJustification") :=
  ⟨rfl,
   (C5_missing_key_errors "t" "\x7b\"portfolio\": []\x7d"
       (Json.obj [("portfolio", Json.arr [])]) 0 (fun _ => 0) (fun _ => 0)
       rfl).2.1
     (Json.arr []) rfl rfl⟩

/-! ### C6: no all-or-nothing rendering -/

theorem hasError_append (a b : List RenderItem) :
    hasError (a ++ b) = (hasError a || hasError b) := by
  simp only [hasError, List.any_append]

theorem hasChart_append (a b : List RenderItem) :
    hasChart (a ++ b) = (hasChart a || hasChart b) := by
  simp only [hasChart, List.any_append]

/-- The `try` body itself never renders an error message (errors surface
only through the `except` handler). -/
theorem tryBody_renders_no_error (thesis : String) (completion : Except String String)
    (numDays : Int) (drawsP drawsB : Nat → ℚ) :
    hasError (tryBody thesis completion numDays drawsP drawsB).1 = false := by
  simp only [tryBody]
  repeat' split
  all_goals rfl

/-- The chart is rendered exactly on the fully successful path: the `try`
body shows it iff it raises no exception. -/
theorem tryBody_chart_iff_ok (thesis : String) (completion : Except String String)
    (numDays : Int) (drawsP drawsB : Nat → ℚ) :
    hasChart (tryBody thesis completion numDays drawsP drawsB).1 =
      (tryBody thesis completion numDays drawsP drawsB).2.isNone := by
  simp only [tryBody]
  repeat' split
  all_goals rfl

/-- C6 as stated is false: on this input (a valid object whose single
portfolio entry lacks `allocation`), the overall justification is rendered
at line 66, and then line 69 raises `KeyError` — so an error is shown *and*
part of the portfolio output was rendered. -/
theorem C6_counterexample :
    hasError (generatePortfolio "t" "sk" "fk"
      (.ok "\x7b\"portfolio\":[\x7b\"symbol\":\"A\",\"name\":\"Alpha\",\"justification\":\"x\"\x7d],\"overallJustification\":\"z\"\x7d")
      0 (fun _ => 0) (fun _ => 0)) = true ∧
    hasPortfolioOutput (generatePortfolio "t" "sk" "fk"
      (.ok "\x7b\"portfolio\":[\x7b\"symbol\":\"A\",\"name\":\"Alpha\",\"justification\":\"x\"\x7d],\"overallJustification\":\"z\"\x7d")
      0 (fun _ => 0) (fun _ => 0)) = true :=
  ⟨rfl, rfl⟩

/-- C6 amended: the all-or-nothing guarantee holds only for the chart, the
final step: every run shows either the chart (full success, no error) or an
error message, never both — but output rendered before the failing line
(the justification, possibly the table) persists when an error follows. -/
theorem C6_error_xor_chart (thesis openai_api_key fmp_api_key : String)
    (completion : Except String String) (numDays : Int) (drawsP drawsB : Nat → ℚ) :
    hasChart (generatePortfolio thesis openai_api_key fmp_api_key completion
        numDays drawsP drawsB) =
      !hasError (generatePortfolio thesis openai_api_key fmp_api_key completion
        numDays drawsP drawsB) := by
  have h1 := tryBody_renders_no_error thesis completion numDays drawsP drawsB
  have h2 := tryBody_chart_iff_ok thesis completion numDays drawsP drawsB
  unfold generatePortfolio
  split
  · simp [hasError, hasChart]
  · cases htb : tryBody thesis completion numDays drawsP drawsB with
    | mk shown err =>
      rw [htb] at h1 h2
      cases err with
      | none =>
        have h1x : hasError shown = false := by simpa using h1
        have h2x : hasChart shown = true := by simpa using h2
        simp [htb, h1x, h2x]
      | some e =>
        have h1x : hasError shown = false := by simpa using h1
        have h2x : hasChart shown = false := by simpa using h2
        simp only [htb, hasChart_append, hasError_append, h1x, h2x]
        rfl
